import Mathlib

/-!
Shallow embedding of `src/shapes/Image.ts` (the Konva `Image` shape).

Numbers are modelled as `Int` (the operations here only store, compare and
test truthiness of numeric attributes; no arithmetic is performed on them),
except the absolute opacity, which is modelled as `Rat` since the code only
compares it against `1`.  The drawing surface is modelled as a log of the
primitive drawing commands issued on it; the `drawImage` primitive may
fail, modelling a canvas blit that raises.
-/

namespace Konva

/-- An image-like source (image / canvas / video element): an external handle
carrying intrinsic `width` and `height`. -/
structure ImageSource where
  width : Int
  height : Int
deriving DecidableEq, Repr

/-- The attribute store of an `Image` node: the attributes the image shape
reads and writes.  `none` models an attribute that has never been set
(JavaScript `undefined`). -/
structure ImageAttrs where
  image : Option ImageSource := none
  width : Option Int := none
  height : Option Int := none
  cropX : Option Int := none
  cropY : Option Int := none
  cropWidth : Option Int := none
  cropHeight : Option Int := none
deriving DecidableEq, Repr

/-- An `Image` node.  `attrs` is the attribute store of the node.
The remaining fields model the state read by the shared style predicates of
the `Shape` base class (`hasFill`, `hasStroke`, `hasShadow`,
`getAbsoluteOpacity`, `getStage`): that class is not part of the sources, so
those predicates are modelled from the spec as opaque per-node state
(spec section 6 lists them as the consumed interface). -/
structure Image where
  attrs : ImageAttrs := {}
  fillEnabled : Bool := false
  strokeEnabled : Bool := false
  shadowEnabled : Bool := false
  absoluteOpacity : Rat := 1
  onStage : Bool := false
deriving DecidableEq, Repr

/-- Modelled from the spec: shared style predicate `hasFill()` of the Shape
base class (spec section 6), whether a fill is configured. -/
def Image.hasFill (n : Image) : Bool := n.fillEnabled

/-- Modelled from the spec: shared style predicate `hasStroke()` of the Shape
base class (spec section 6), whether a stroke is configured. -/
def Image.hasStroke (n : Image) : Bool := n.strokeEnabled

/-- Modelled from the spec: shared style predicate `hasShadow()` of the Shape
base class (spec section 6), whether a shadow is configured. -/
def Image.hasShadow (n : Image) : Bool := n.shadowEnabled

/-- Modelled from the spec: `getAbsoluteOpacity()` of the Shape base class
(spec section 6), the absolute opacity of the node. -/
def Image.getAbsoluteOpacity (n : Image) : Rat := n.absoluteOpacity

/-- Modelled from the spec: `getStage()` liveness check of the Shape base
class (spec section 6), modelled as its truthiness: whether the node is
attached to a live stage. -/
def Image.getStage (n : Image) : Bool := n.onStage

/-- Modelled from the spec: the getter generated by
`Factory.addGetterSetter` for `image` — returns the stored `image`
attribute (no default). -/
def Image.image (n : Image) : Option ImageSource := n.attrs.image

/-- Modelled from the spec: the getter generated by
`Factory.addGetterSetter` for `cropX` with default `0` and the number
validator — returns the stored value or the default `0`. -/
def Image.cropX (n : Image) : Int := n.attrs.cropX.getD 0

/-- Modelled from the spec: getter for `cropY` (default `0`). -/
def Image.cropY (n : Image) : Int := n.attrs.cropY.getD 0

/-- Modelled from the spec: getter for `cropWidth` (default `0`). -/
def Image.cropWidth (n : Image) : Int := n.attrs.cropWidth.getD 0

/-- Modelled from the spec: getter for `cropHeight` (default `0`). -/
def Image.cropHeight (n : Image) : Int := n.attrs.cropHeight.getD 0

/-- Modelled from the spec: the setter generated by the reactive property
factory — validates (every `Int` passes the numeric validator) and stores
the value under the attribute name (spec section 4.1). -/
def Image.setCropX (n : Image) (v : Int) : Image :=
  { n with attrs := { n.attrs with cropX := some v } }

/-- Modelled from the spec: setter for `cropY`. -/
def Image.setCropY (n : Image) (v : Int) : Image :=
  { n with attrs := { n.attrs with cropY := some v } }

/-- Modelled from the spec: setter for `cropWidth`. -/
def Image.setCropWidth (n : Image) (v : Int) : Image :=
  { n with attrs := { n.attrs with cropWidth := some v } }

/-- Modelled from the spec: setter for `cropHeight`. -/
def Image.setCropHeight (n : Image) (v : Int) : Image :=
  { n with attrs := { n.attrs with cropHeight := some v } }

/-- Modelled from the spec: setter for the `width` attribute. -/
def Image.setWidth (n : Image) (v : Int) : Image :=
  { n with attrs := { n.attrs with width := some v } }

/-- Modelled from the spec: setter for the `height` attribute. -/
def Image.setHeight (n : Image) (v : Int) : Image :=
  { n with attrs := { n.attrs with height := some v } }

/-- Modelled from the spec: setter for the `image` attribute. -/
def Image.setImage (n : Image) (img : ImageSource) : Image :=
  { n with attrs := { n.attrs with image := some img } }

/-- JavaScript truthiness-or on an optional number: `a || b` where a stored
`0` (and an unset attribute) falls through to `b`. -/
def jsOr (a : Option Int) (b : Int) : Int :=
  match a with
  | some v => if v != 0 then v else b
  | none => b

/-- `Image.getWidth` from the source:
`this.attrs.width || (image ? image.width : 0)`. -/
def Image.getWidth (n : Image) : Int :=
  let image := n.image
  jsOr n.attrs.width (match image with | some i => i.width | none => 0)

/-- `Image.getHeight` from the source:
`this.attrs.height || (image ? image.height : 0)`. -/
def Image.getHeight (n : Image) : Int :=
  let image := n.image
  jsOr n.attrs.height (match image with | some i => i.height | none => 0)

/-- `Image._useBufferCanvas` from the source:
`(this.hasShadow() || this.getAbsoluteOpacity() !== 1) && this.hasStroke() && this.getStage()`
(modelled as its truthiness). -/
def Image._useBufferCanvas (n : Image) : Bool :=
  (n.hasShadow || n.getAbsoluteOpacity != 1) && n.hasStroke && n.getStage

/-- A primitive drawing command issued on a drawing surface (spec section 6):
path construction, the shared fill/stroke compositor, and the two arities of
the canvas blit. -/
inductive DrawCmd where
  | beginPath : DrawCmd
  | rect : Int → Int → Int → Int → DrawCmd
  | closePath : DrawCmd
  | fillStrokeShape : DrawCmd
  | drawImage5 : ImageSource → Int → Int → Int → Int → DrawCmd
  | drawImage9 : ImageSource → Int → Int → Int → Int → Int → Int → Int → Int → DrawCmd
deriving DecidableEq, Repr

/-- Whether a command is a `drawImage` blit (of either arity). -/
def DrawCmd.isDrawImage : DrawCmd → Bool
  | DrawCmd.drawImage5 _ _ _ _ _ => true
  | DrawCmd.drawImage9 _ _ _ _ _ _ _ _ _ => true
  | _ => false

/-- A drawing surface.  `drawImageOk` models whether the underlying
`drawImage` primitive succeeds or raises (e.g. the source is not yet
decodable). -/
structure Surface where
  drawImageOk : Bool
deriving DecidableEq, Repr

/-- Modelled from the spec: the `drawImage` primitive of the drawing-surface
abstraction — it either executes the blit command or raises (spec section 7,
transient source unavailability). -/
def Surface.drawImageCall (s : Surface) (c : DrawCmd) : Except Unit (List DrawCmd) :=
  if s.drawImageOk then Except.ok [c] else Except.error ()

/-- `Image._sceneFunc` from the source, as a state transformer: it takes the
node and the surface and returns the (possibly updated) node together with
the list of drawing commands successfully executed on the surface, in order.
The try/catch of the source around `context.drawImage`
is the `match` on the `Except` result of the blit primitive: an error is
swallowed and the function still returns normally. -/
def Image._sceneFunc (n : Image) (s : Surface) : Image × List DrawCmd :=
  let width := n.getWidth
  let height := n.getHeight
  let image := n.image
  let params : Option DrawCmd :=
    match image with
    | some img =>
      let cropWidth := n.cropWidth
      let cropHeight := n.cropHeight
      if cropWidth != 0 && cropHeight != 0 then
        some (DrawCmd.drawImage9 img n.cropX n.cropY cropWidth cropHeight 0 0 width height)
      else
        some (DrawCmd.drawImage5 img 0 0 width height)
    | none => none
  let bg : List DrawCmd :=
    if n.hasFill || n.hasStroke then
      [DrawCmd.beginPath, DrawCmd.rect 0 0 width height, DrawCmd.closePath,
       DrawCmd.fillStrokeShape]
    else []
  let blit : List DrawCmd :=
    match params with
    | some p =>
      match s.drawImageCall p with
      | Except.ok cs => cs
      | Except.error _ => []
    | none => []
  (n, bg ++ blit)

/-- `Image._hitFunc` from the source, as a state transformer: paints the
bounding rectangle through the shared fill/stroke compositor. -/
def Image._hitFunc (n : Image) : Image × List DrawCmd :=
  let width := n.getWidth
  let height := n.getHeight
  (n, [DrawCmd.beginPath, DrawCmd.rect 0 0 width height, DrawCmd.closePath,
       DrawCmd.fillStrokeShape])

/-- The assembled composite `crop` value `{x, y, width, height}`. -/
structure CropRect where
  x : Int
  y : Int
  width : Int
  height : Int
deriving DecidableEq, Repr

/-- A (possibly partial) object passed to the composite `crop` setter:
`none` components are absent from the object. -/
structure CropPatch where
  x : Option Int := none
  y : Option Int := none
  width : Option Int := none
  height : Option Int := none
deriving DecidableEq, Repr

/-- Modelled from the spec: the composite getter generated by
`Factory.addComponentsGetterSetter` for `crop` over components x, y, width, height
— reads each `crop`+component attribute and assembles the object
(spec section 4.1). -/
def Image.crop (n : Image) : CropRect :=
  ⟨n.cropX, n.cropY, n.cropWidth, n.cropHeight⟩

/-- Modelled from the spec: the composite setter — decomposes the (possibly
partial) object and writes each supplied component through the per-component
validated setter, leaving unspecified components at their prior value
(spec section 4.1). -/
def Image.setCrop (n : Image) (p : CropPatch) : Image :=
  let n1 := match p.x with | some v => n.setCropX v | none => n
  let n2 := match p.y with | some v => n1.setCropY v | none => n1
  let n3 := match p.width with | some v => n2.setCropWidth v | none => n2
  match p.height with | some v => n3.setCropHeight v | none => n3

/-- An action performed by `Image.fromURL` on the platform image element it
creates, in program order. -/
inductive LoaderAction where
  | createImageElement : LoaderAction
  | setOnload : LoaderAction
  | setOnerror : LoaderAction
  | setCrossOrigin : String → LoaderAction
  | setSrc : String → LoaderAction
deriving DecidableEq, Repr

/-- `Image.fromURL` from the source, as the ordered trace of actions it
performs on the platform image element: create the element
(`Util.createImageElement()`), install the `onload` handler, set
`crossOrigin` to the string `Anonymous`, then assign `src = url`.  No `onerror` handler
is ever installed. -/
def Image.fromURL (url : String) : List LoaderAction :=
  [LoaderAction.createImageElement, LoaderAction.setOnload,
   LoaderAction.setCrossOrigin "Anonymous", LoaderAction.setSrc url]

/-- The `onload` handler installed by `Image.fromURL`, given the loaded
element: the list of callback invocations it performs, each carrying the
node passed to the callback (`new Image({ image: img })`). -/
def Image.fromURLOnload (img : ImageSource) : List Image :=
  [{ attrs := { image := some img } }]

/-- The buffering predicate exactly as the spec words it (for comparison with
the one embedded from the source): shadow AND absolute opacity not `1` AND
stroke AND live stage. -/
def Image.useBufferCanvasSpec (n : Image) : Bool :=
  n.hasShadow && (n.getAbsoluteOpacity != 1) && n.hasStroke && n.getStage

/-- A node with a shadow, a stroke, a live stage and absolute opacity `1`. -/
def shadowStrokeStageNode : Image :=
  { shadowEnabled := true, strokeEnabled := true, onStage := true }

/-- A node whose only set attribute is an image source of intrinsic size
50 by 50. -/
def img50Node : Image := { attrs := { image := some ⟨50, 50⟩ } }

/-- A node with an image source, a full crop rectangle and a fill. -/
def croppedNode : Image :=
  { attrs := { image := some ⟨50, 50⟩, cropX := some 3, cropY := some 4,
               cropWidth := some 10, cropHeight := some 10 },
    fillEnabled := true }

/-- A node with an image source, explicit dimensions and a fill, but no
crop. -/
def uncroppedFillNode : Image :=
  { attrs := { image := some ⟨50, 50⟩, width := some 20, height := some 30 },
    fillEnabled := true }

/-- A node with no image and a stroke. -/
def strokeOnlyNode : Image := { strokeEnabled := true }

end Konva

open Konva

/-- C1 counterexample: a node with a shadow, a stroke and a live stage but
absolute opacity exactly `1` makes `_useBufferCanvas` return true, while the
claimed four-way conjunction (which requires the absolute opacity to differ
from `1`) is false — so the claim as stated fails on the code. -/
theorem C1_counterexample :
    Image._useBufferCanvas shadowStrokeStageNode = true ∧
    Image.useBufferCanvasSpec shadowStrokeStageNode = false ∧
    shadowStrokeStageNode.getAbsoluteOpacity = 1 ∧
    shadowStrokeStageNode.hasShadow = true ∧
    shadowStrokeStageNode.hasStroke = true ∧
    shadowStrokeStageNode.getStage = true := by
  refine ⟨rfl, rfl, rfl, rfl, rfl, rfl⟩

/-- C1 (amended): `_useBufferCanvas` returns true exactly when (the node has
a shadow OR its absolute opacity is not `1`) AND it has a stroke AND it is
attached to a live stage; turning the stroke off or detaching from the stage
makes it false, and making the shadow false together with opacity `1` makes
it false. -/
theorem C1_useBufferCanvas_characterization (n : Image) :
    (Image._useBufferCanvas n = true ↔
      ((n.hasShadow = true ∨ n.getAbsoluteOpacity ≠ 1) ∧
        n.hasStroke = true ∧ n.getStage = true)) ∧
    Image._useBufferCanvas { n with strokeEnabled := false } = false ∧
    Image._useBufferCanvas { n with onStage := false } = false ∧
    Image._useBufferCanvas { n with shadowEnabled := false, absoluteOpacity := 1 } = false := by
  refine ⟨?_, ?_, ?_, ?_⟩ <;>
    simp [Image._useBufferCanvas, Image.hasShadow, Image.hasStroke, Image.getStage,
      Image.getAbsoluteOpacity, and_assoc]

/-- C8: setting the composite `crop` with a full object and reading `crop`
returns that object; a subsequent partial `crop` set changes only the
supplied component; and each single-component crop setter leaves every other
crop component unchanged. -/
theorem C8_crop_composite (n : Image) (v : Int) :
    (n.setCrop ⟨some 1, some 2, some 3, some 4⟩).crop = ⟨1, 2, 3, 4⟩ ∧
    ((n.setCrop ⟨some 1, some 2, some 3, some 4⟩).setCrop
        ⟨some 9, none, none, none⟩).crop = ⟨9, 2, 3, 4⟩ ∧
    (n.setCropX v).cropY = n.cropY ∧
    (n.setCropX v).cropWidth = n.cropWidth ∧
    (n.setCropX v).cropHeight = n.cropHeight ∧
    (n.setCropY v).cropX = n.cropX ∧
    (n.setCropY v).cropWidth = n.cropWidth ∧
    (n.setCropY v).cropHeight = n.cropHeight ∧
    (n.setCropWidth v).cropX = n.cropX ∧
    (n.setCropWidth v).cropY = n.cropY ∧
    (n.setCropWidth v).cropHeight = n.cropHeight ∧
    (n.setCropHeight v).cropX = n.cropX ∧
    (n.setCropHeight v).cropY = n.cropY ∧
    (n.setCropHeight v).cropWidth = n.cropWidth := by
  refine ⟨rfl, rfl, ?_, ?_, ?_, ?_, ?_, ?_, ?_, ?_, ?_, ?_, ?_, ?_⟩ <;>
    simp [Image.setCropX, Image.setCropY, Image.setCropWidth, Image.setCropHeight,
      Image.cropX, Image.cropY, Image.cropWidth, Image.cropHeight]

/-- C9: the `fromURL` trace creates the platform element, installs the
load handler, sets `crossOrigin` to the permissive `Anonymous` value at
position 2 — strictly before assigning the source URL at position 3 — and
never installs an error handler; the load handler invokes the callback
exactly once, with a node whose `image` attribute is the loaded element. -/
theorem C9_fromURL_trace (url : String) (img : ImageSource) :
    (Image.fromURL url).length = 4 ∧
    (Image.fromURL url)[0]? = some LoaderAction.createImageElement ∧
    (Image.fromURL url)[1]? = some LoaderAction.setOnload ∧
    (Image.fromURL url)[2]? = some (LoaderAction.setCrossOrigin "Anonymous") ∧
    (Image.fromURL url)[3]? = some (LoaderAction.setSrc url) ∧
    LoaderAction.setOnerror ∉ Image.fromURL url ∧
    (Image.fromURLOnload img).length = 1 ∧
    Image.fromURLOnload img = [{ attrs := { image := some img } }] ∧
    (Image.image { attrs := { image := some img } }) = some img := by
  refine ⟨rfl, rfl, rfl, rfl, rfl, ?_, rfl, rfl, rfl⟩
  simp [Image.fromURL]

/-- C10: the render entry points only read the node: `_sceneFunc` (on any
surface, including one whose `drawImage` primitive raises) and `_hitFunc`
return the node with its entire attribute state unchanged.  The remaining
operations of the claim (`_useBufferCanvas`, `getWidth`, `getHeight`) are
embedded as value-returning functions of the node, mirroring that the source
methods contain no attribute write. -/
theorem C10_render_reads_only (n : Image) (s : Surface) :
    (Image._sceneFunc n s).1 = n ∧
    (Image._sceneFunc n { drawImageOk := false }).1 = n ∧
    (Image._hitFunc n).1 = n := by
  refine ⟨rfl, rfl, rfl⟩

/-- Helper: when no image is present, or the blit primitive raises, the
command log of `_sceneFunc` is exactly the background (when a fill or stroke
is configured) and nothing else. -/
theorem sceneFunc_no_blit (n : Image) (s : Surface)
    (h : n.image = none ∨ s.drawImageOk = false) :
    (Image._sceneFunc n s).2 =
      if n.hasFill || n.hasStroke then
        [DrawCmd.beginPath, DrawCmd.rect 0 0 n.getWidth n.getHeight,
         DrawCmd.closePath, DrawCmd.fillStrokeShape]
      else [] := by
  rcases h with h | h
  · simp [Image._sceneFunc, h]
  · cases himg : n.image
    · simp [Image._sceneFunc, himg]
    · simp [Image._sceneFunc, himg, h, Surface.drawImageCall]
      split <;> simp

/-- Helper: when an image is present and the blit primitive succeeds, the
command log of `_sceneFunc` is the background followed by the single blit,
region-copy when both crop dimensions are non-zero and full-source
otherwise. -/
theorem sceneFunc_blit (n : Image) (img : ImageSource) (s : Surface)
    (himg : n.image = some img) (hok : s.drawImageOk = true) :
    (Image._sceneFunc n s).2 =
      (if n.hasFill || n.hasStroke then
        [DrawCmd.beginPath, DrawCmd.rect 0 0 n.getWidth n.getHeight,
         DrawCmd.closePath, DrawCmd.fillStrokeShape]
      else []) ++
      (if n.cropWidth ≠ 0 ∧ n.cropHeight ≠ 0 then
        [DrawCmd.drawImage9 img n.cropX n.cropY n.cropWidth n.cropHeight 0 0
          n.getWidth n.getHeight]
      else [DrawCmd.drawImage5 img 0 0 n.getWidth n.getHeight]) := by
  simp [Image._sceneFunc, himg, hok, Surface.drawImageCall]
  split <;> split <;> simp_all

/-- C2: with an image present and a succeeding surface, the scene paint
issues exactly one `drawImage`: the 9-argument region copy with source
rectangle `(cropX, cropY, cropWidth, cropHeight)` and destination
`(0, 0, width, height)` when both crop dimensions are non-zero, and the
5-argument full-source form `(image, 0, 0, width, height)` when either crop
dimension is zero. -/
theorem C2_scene_blit (n : Image) (img : ImageSource) (s : Surface)
    (himg : n.image = some img) (hok : s.drawImageOk = true) :
    (n.cropWidth ≠ 0 → n.cropHeight ≠ 0 →
      (Image._sceneFunc n s).2.filter DrawCmd.isDrawImage =
        [DrawCmd.drawImage9 img n.cropX n.cropY n.cropWidth n.cropHeight 0 0
          n.getWidth n.getHeight]) ∧
    (n.cropWidth = 0 ∨ n.cropHeight = 0 →
      (Image._sceneFunc n s).2.filter DrawCmd.isDrawImage =
        [DrawCmd.drawImage5 img 0 0 n.getWidth n.getHeight]) := by
  rw [sceneFunc_blit n img s himg hok]
  constructor
  · intro hw hh
    by_cases hf : (n.hasFill || n.hasStroke) = true <;>
      simp [hf, hw, hh, DrawCmd.isDrawImage]
  · rintro (h | h) <;>
      by_cases hf : (n.hasFill || n.hasStroke) = true <;>
        simp [hf, h, DrawCmd.isDrawImage]

/-- C2 witness: on a node with crop `(3, 4, 10, 10)` the blit is the
9-argument region copy; on a node with no crop set it is the 5-argument
full-source form. -/
theorem C2_scene_blit_witness :
    (Image._sceneFunc croppedNode ⟨true⟩).2.filter DrawCmd.isDrawImage =
      [DrawCmd.drawImage9 ⟨50, 50⟩ 3 4 10 10 0 0 50 50] ∧
    (Image._sceneFunc uncroppedFillNode ⟨true⟩).2.filter DrawCmd.isDrawImage =
      [DrawCmd.drawImage5 ⟨50, 50⟩ 0 0 20 30] := by
  have h1 := (C2_scene_blit croppedNode ⟨50, 50⟩ ⟨true⟩ rfl rfl).1
    (by decide) (by decide)
  have h2 := (C2_scene_blit uncroppedFillNode ⟨50, 50⟩ ⟨true⟩ rfl rfl).2
    (Or.inl (by decide))
  exact ⟨h1, h2⟩

/-- C3: `getWidth` returns the explicit `width` attribute when set and
non-zero, else the intrinsic width of the image source when present, else
`0`; `getHeight` behaves the same over `height`; and the two dimensions fall
back independently — setting one dimension does not change the other. -/
theorem C3_dimension_fallback (n : Image) (v : Int) :
    (∀ w : Int, n.attrs.width = some w → w ≠ 0 → n.getWidth = w) ∧
    (∀ h : Int, n.attrs.height = some h → h ≠ 0 → n.getHeight = h) ∧
    (∀ img : ImageSource, (n.attrs.width = none ∨ n.attrs.width = some 0) →
      n.image = some img → n.getWidth = img.width) ∧
    (∀ img : ImageSource, (n.attrs.height = none ∨ n.attrs.height = some 0) →
      n.image = some img → n.getHeight = img.height) ∧
    ((n.attrs.width = none ∨ n.attrs.width = some 0) → n.image = none →
      n.getWidth = 0) ∧
    ((n.attrs.height = none ∨ n.attrs.height = some 0) → n.image = none →
      n.getHeight = 0) ∧
    (Image.getHeight (n.setWidth v) = n.getHeight) ∧
    (Image.getWidth (n.setHeight v) = n.getWidth) := by
  refine ⟨?_, ?_, ?_, ?_, ?_, ?_, ?_, ?_⟩
  · intro w hw hne; simp [Image.getWidth, jsOr, hw, hne]
  · intro h hh hne; simp [Image.getHeight, jsOr, hh, hne]
  · rintro img (hw | hw) him <;> simp_all [Image.getWidth, Image.image, jsOr]
  · rintro img (hh | hh) him <;> simp_all [Image.getHeight, Image.image, jsOr]
  · rintro (hw | hw) him <;> simp_all [Image.getWidth, Image.image, jsOr]
  · rintro (hh | hh) him <;> simp_all [Image.getHeight, Image.image, jsOr]
  · simp [Image.setWidth, Image.getHeight, Image.image, jsOr]
  · simp [Image.setHeight, Image.getWidth, Image.image, jsOr]

/-- C3 witness: with an image of intrinsic size 50 by 50 and no explicit
dimensions both getters return 50; after setting the width to 80 the width
getter returns 80 while the height getter still returns 50. -/
theorem C3_dimension_fallback_witness :
    img50Node.getWidth = 50 ∧ img50Node.getHeight = 50 ∧
    (Image.setWidth img50Node 80).getWidth = 80 ∧
    (Image.setWidth img50Node 80).getHeight = 50 := by
  have h0 := C3_dimension_fallback img50Node 80
  have h1 := C3_dimension_fallback (Image.setWidth img50Node 80) 0
  refine ⟨h0.2.2.1 ⟨50, 50⟩ (Or.inl rfl) rfl, h0.2.2.2.1 ⟨50, 50⟩ (Or.inl rfl) rfl,
    h1.1 80 rfl (by decide), ?_⟩
  have hind := h0.2.2.2.2.2.2.1
  rw [hind]
  exact h0.2.2.2.1 ⟨50, 50⟩ (Or.inl rfl) rfl

/-- C4: when the `drawImage` primitive raises, the scene paint still
completes and its command log is exactly the already-painted background
(`beginPath`, `rect`, `closePath`, `fillStrokeShape` when a fill or stroke
is configured), with no blit in the log. -/
theorem C4_blit_error_suppressed (n : Image) (s : Surface)
    (hfail : s.drawImageOk = false) :
    (Image._sceneFunc n s).2 =
      (if n.hasFill || n.hasStroke then
        [DrawCmd.beginPath, DrawCmd.rect 0 0 n.getWidth n.getHeight,
         DrawCmd.closePath, DrawCmd.fillStrokeShape]
      else []) ∧
    (Image._sceneFunc n s).2.filter DrawCmd.isDrawImage = [] := by
  have h := sceneFunc_no_blit n s (Or.inr hfail)
  refine ⟨h, ?_⟩
  rw [h]
  split <;> simp [DrawCmd.isDrawImage]

/-- C4 witness: on a node with an image, a crop and a fill, a surface whose
blit primitive raises still gets the full background and no blit. -/
theorem C4_blit_error_suppressed_witness :
    (Image._sceneFunc croppedNode ⟨false⟩).2 =
      [DrawCmd.beginPath, DrawCmd.rect 0 0 50 50, DrawCmd.closePath,
       DrawCmd.fillStrokeShape] ∧
    (Image._sceneFunc croppedNode ⟨false⟩).2.filter DrawCmd.isDrawImage = [] := by
  have h := C4_blit_error_suppressed croppedNode ⟨false⟩ rfl
  obtain ⟨h1, h2⟩ := h
  refine ⟨?_, h2⟩
  rw [h1]
  decide

/-- C5: with no image set, the scene paint issues no drawing call at all
when neither fill nor stroke is configured, and paints only the rectangular
background (with no blit) when a fill or stroke is configured. -/
theorem C5_no_image_placeholder (n : Image) (s : Surface)
    (himg : n.image = none) :
    (n.hasFill = false → n.hasStroke = false → (Image._sceneFunc n s).2 = []) ∧
    ((n.hasFill || n.hasStroke) = true →
      (Image._sceneFunc n s).2 =
        [DrawCmd.beginPath, DrawCmd.rect 0 0 n.getWidth n.getHeight,
         DrawCmd.closePath, DrawCmd.fillStrokeShape] ∧
      (Image._sceneFunc n s).2.filter DrawCmd.isDrawImage = []) := by
  have h := sceneFunc_no_blit n s (Or.inl himg)
  constructor
  · intro h1 h2
    rw [h]
    simp [h1, h2]
  · intro hf
    rw [h, if_pos hf]
    exact ⟨rfl, by simp [DrawCmd.isDrawImage]⟩

/-- C5 witness: a bare node issues no command; a node with only a stroke
paints only its background rectangle. -/
theorem C5_no_image_placeholder_witness :
    (Image._sceneFunc ({} : Image) ⟨true⟩).2 = [] ∧
    (Image._sceneFunc strokeOnlyNode ⟨true⟩).2 =
      [DrawCmd.beginPath, DrawCmd.rect 0 0 0 0, DrawCmd.closePath,
       DrawCmd.fillStrokeShape] := by
  have h0 := C5_no_image_placeholder ({} : Image) ⟨true⟩ rfl
  have h1 := C5_no_image_placeholder strokeOnlyNode ⟨true⟩ rfl
  exact ⟨h0.1 rfl rfl, (h1.2 rfl).1⟩

/-- C6: the hit paint always issues exactly the sequence `beginPath`,
`rect (0, 0, width, height)`, `closePath`, `fillStrokeShape`, never a blit;
the sequence is unchanged by the crop and shadow attributes, and with an
image set it is still the same rectangle sequence (over the dimensions of
the node with that image). -/
theorem C6_hit_rectangle (n : Image) (v : Int) (b : Bool) (img : ImageSource) :
    (Image._hitFunc n).2 =
      [DrawCmd.beginPath, DrawCmd.rect 0 0 n.getWidth n.getHeight,
       DrawCmd.closePath, DrawCmd.fillStrokeShape] ∧
    (Image._hitFunc n).2.filter DrawCmd.isDrawImage = [] ∧
    (Image._hitFunc (n.setCropX v)).2 = (Image._hitFunc n).2 ∧
    (Image._hitFunc (n.setCropY v)).2 = (Image._hitFunc n).2 ∧
    (Image._hitFunc (n.setCropWidth v)).2 = (Image._hitFunc n).2 ∧
    (Image._hitFunc (n.setCropHeight v)).2 = (Image._hitFunc n).2 ∧
    (Image._hitFunc { n with shadowEnabled := b }).2 = (Image._hitFunc n).2 ∧
    (Image._hitFunc (n.setImage img)).2 =
      [DrawCmd.beginPath,
       DrawCmd.rect 0 0 (Image.getWidth (n.setImage img))
         (Image.getHeight (n.setImage img)),
       DrawCmd.closePath, DrawCmd.fillStrokeShape] := by
  refine ⟨rfl, by simp [Image._hitFunc, DrawCmd.isDrawImage], ?_, ?_, ?_, ?_, ?_, rfl⟩ <;>
    simp [Image._hitFunc, Image.getWidth, Image.getHeight, Image.image, jsOr,
      Image.setCropX, Image.setCropY, Image.setCropWidth, Image.setCropHeight]

/-- C7 counterexample: the round-trip fails for the `width` attribute at the
valid numeric value `0` — on a node holding a 50 by 50 image source, setting
the width to `0` and reading it back through `getWidth` yields `50`, not
`0`, because the stored `0` is falsy and falls through to the intrinsic
width. -/
theorem C7_roundtrip_counterexample :
    (Image.setWidth img50Node 0).getWidth = 50 ∧
    (Image.setWidth img50Node 0).getWidth ≠ 0 := by
  refine ⟨rfl, by decide⟩

/-- C7 (amended): the set-then-get round-trip holds for `cropX`, `cropY`,
`cropWidth` and `cropHeight` at every numeric value, and for `width` and
`height` at every non-zero value — and also at `0` when no image source is
present; before any set, the four crop attributes read as the default `0`. -/
theorem C7_roundtrip_amended (n : Image) (v : Int) :
    (n.setCropX v).cropX = v ∧
    (n.setCropY v).cropY = v ∧
    (n.setCropWidth v).cropWidth = v ∧
    (n.setCropHeight v).cropHeight = v ∧
    (v ≠ 0 → (n.setWidth v).getWidth = v ∧ (n.setHeight v).getHeight = v) ∧
    (n.image = none → (n.setWidth 0).getWidth = 0 ∧ (n.setHeight 0).getHeight = 0) ∧
    Image.cropX {} = 0 ∧ Image.cropY {} = 0 ∧
    Image.cropWidth {} = 0 ∧ Image.cropHeight {} = 0 := by
  refine ⟨rfl, rfl, rfl, rfl, ?_, ?_, rfl, rfl, rfl, rfl⟩
  · intro hv
    constructor <;>
      simp [Image.setWidth, Image.setHeight, Image.getWidth, Image.getHeight, jsOr, hv]
  · intro him
    simp only [Image.image] at him
    constructor <;>
      simp [Image.setWidth, Image.setHeight, Image.getWidth, Image.getHeight,
        Image.image, jsOr, him]

/-- C7 witness: on a node with no image, `cropX` round-trips at `7`, and
`width` round-trips at `5` and even at `0`. -/
theorem C7_roundtrip_amended_witness :
    (Image.setCropX strokeOnlyNode 7).cropX = 7 ∧
    (Image.setWidth strokeOnlyNode 5).getWidth = 5 ∧
    (Image.setWidth strokeOnlyNode 0).getWidth = 0 := by
  have h5 := C7_roundtrip_amended strokeOnlyNode 5
  have h7 := C7_roundtrip_amended strokeOnlyNode 7
  exact ⟨h7.1, (h5.2.2.2.2.1 (by decide)).1, (h5.2.2.2.2.2.1 rfl).1⟩
